import Mathlib

/-!
Verification of the `mfa` repository: a terminal TOTP (time-based one-time
passcode) device. The core loop is `MFADevice.Run`: on every ticker tick it
generates the current OTP from the configured secret via the external
`pquerna/otp` library, classifies the tick's wall-clock second into a
severity (warning when the code is close to expiry), and routes the code to
the configured `Writer` sink's `Warn` or `Write` entry point, panicking on
any returned error. Construction happens through functional options
(`NewMFADevice`, `Secret`, `SecretFromFile`, `Output`, `UpdateFrequency`,
`RefreshPeriod`, `Digits`, `Algorithm`).

Times are modelled as Unix seconds (`Nat`, UTC), byte sequences as
`List Nat`, Go strings as Lean `String`. The `pquerna/otp` library itself is
not part of the repository's sources; its generator is modelled from the
spec (see `hmac31` and `generate`).
-/

namespace Mfa

/-- Byte sequences (Go `[]byte`); each entry a byte value. -/
abbrev Bytes := List Nat

/-- Go `[]byte(s)` conversion of a string; secrets here are ASCII, so code
points stand in for bytes. -/
def strBytes (s : String) : Bytes := s.data.map Char.toNat

/-- Go `t.Second()`: the seconds-of-minute component of a wall-clock time,
modelled on Unix seconds in UTC, so `second t = t % 60`. -/
def second (t : Nat) : Nat := t % 60

/-- A decimal digit character, as Go's `fmt` verb `%d` prints one digit. -/
def digitChar (n : Nat) : Char := Char.ofNat (48 + n)

/-- Fuel-indexed decimal representation of a natural number, most
significant digit first (the digits Go's `%d` prints). -/
def decReprAux : Nat → Nat → List Char
  | 0, _ => []
  | fuel + 1, n =>
    if n < 10 then [digitChar n]
    else decReprAux fuel (n / 10) ++ [digitChar (n % 10)]

/-- Decimal representation of `n` (Go `fmt.Sprintf` with verb `d`). -/
def decRepr (n : Nat) : List Char := decReprAux (n + 1) n

/-- Left-pad with `0` to width `l`: the semantics of Go's zero-padded
width-`l` decimal verb applied to the digit list `s` (when `s` is already
wider than `l`, no padding is added, exactly as in Go). -/
def zeroPad (l : Nat) (s : List Char) : List Char :=
  List.replicate (l - s.length) '0' ++ s

/-- Severity tier of an OTP sample. -/
inductive Severity
  | normal
  | warning
deriving DecidableEq, Repr

/-- One invocation of the output sink (`Writer` interface, source lines
368-373): which entry point was called and with what payload. -/
inductive SinkCall
  | write (p : String)
  | warn (p : String)
  | error (p : String)
deriving DecidableEq, Repr

/-- The entry point of a sink call, payload forgotten. -/
inductive CallKind
  | write
  | warn
  | error
deriving DecidableEq, Repr

/-- Kind of a sink call. -/
def callKind : SinkCall → CallKind
  | .write _ => .write
  | .warn _ => .warn
  | .error _ => .error

/-- Whether a piece of straight-line code ran to completion or panicked
(Go `panic`): a panic terminates the process. -/
inductive Outcome
  | completed
  | panicked
deriving DecidableEq, Repr

/-- Behavioural model of the `Writer` interface: each entry point returns an
error or nil; the component functions say, per payload, whether the call
fails (returns a non-nil error). -/
structure Writer where
  writeFails : String → Bool
  warnFails : String → Bool
  errorFails : String → Bool

/-- Whether the sink call `c` fails under writer `w`. -/
def callFails (w : Writer) : SinkCall → Bool
  | .write p => w.writeFails p
  | .warn p => w.warnFails p
  | .error p => w.errorFails p

/-- `Terminal`'s `Write`, `Warn` and `Error` methods always return nil
(source lines 436-451), so a terminal sink call never fails. -/
def terminalWriter : Writer :=
  { writeFails := fun _ => false
    warnFails := fun _ => false
    errorFails := fun _ => false }

/-- `totp.ValidateOpts` (the TOTP options carried by the device): validity
period in seconds, allowed skew, digit count, algorithm constant. The Go
zero value has every field zero. -/
structure ValidateOpts where
  period : Nat := 0
  skew : Nat := 0
  digits : Nat := 0
  algorithm : Nat := 0

/-- `MFADevice` (source lines 453-458): secret bytes, output sink, update
frequency (`time.Duration`, in nanoseconds), TOTP options. -/
structure MFADevice where
  secret : Bytes := []
  writer : Writer
  updateFrequency : Nat := 0
  totpOptions : ValidateOpts := {}

/-- `time.Second` in nanoseconds. -/
def timeSecond : Nat := 1000000000

/-- The `algMap` lookup (source lines 350-355): algorithm names to
`otp.Algorithm` constants, in the library's declaration (iota) order
SHA1 = 0, SHA256 = 1, SHA512 = 2, MD5 = 3. `none` models a key absent from
the Go map, for which the indexing expression yields the zero value 0. -/
def algMapLookup : String → Option Nat
  | "SHA1" => some 0
  | "SHA256" => some 1
  | "SHA512" => some 2
  | "MD5" => some 3
  | _ => none

/-- Error result of OTP generation. -/
inductive GenErr
  | emptySecret
  | badDigits
  | badAlgorithm
deriving DecidableEq, Repr

/-- Modelled from the spec: the OTP computation lives in the external
`pquerna/otp` library, whose source is not under src/. Spec section 4.1
fixes only that the code is an HMAC-based value over the time-step counter
using the selected hash algorithm, deterministic with no hidden state; the
HMAC core is modelled as a concrete deterministic mixing function of
(algorithm, secret, counter) producing the truncated 31-bit value of
spec section 4.1. -/
def hmac31 (alg : Nat) (secret : Bytes) (counter : Nat) : Nat :=
  secret.foldl (fun a b => (a * 16777619 + b) % 2 ^ 31)
    ((counter * 2654435761 + alg * 40503 + 2166136261) % 2 ^ 31)

/-- Modelled from the spec: `totp.GenerateCodeCustom` of the external
`pquerna/otp` library (not under src/), per spec section 4.1:
`generate(secret, timestamp, algorithm, digits, period) -> code`; it
computes a time-step counter as `floor(unix_seconds(timestamp) / period)`,
produces an HMAC-based value over that counter, mod-reduces it to `digits`
decimal digits left-zero-padded to exactly `digits` characters, and fails
with a configuration error if the secret is empty, the digit count is
non-positive, or the algorithm constant is unrecognized (the four
recognized constants are 0..3). -/
def generate (secret : Bytes) (alg digits period t : Nat) : Except GenErr String :=
  if secret = [] then .error .emptySecret
  else if digits = 0 then .error .badDigits
  else if 4 ≤ alg then .error .badAlgorithm
  else .ok (String.mk (zeroPad digits (decRepr (hmac31 alg secret (t / period) % 10 ^ digits))))

/-- `totp.GenerateCodeCustom(string(d.Secret), t, d.TOTPOptions)` as invoked
by `Run` (source line 481). -/
def generateOf (d : MFADevice) (t : Nat) : Except GenErr String :=
  generate d.secret d.totpOptions.algorithm d.totpOptions.digits d.totpOptions.period t

/-- The severity decision of `Run` (source line 485), verbatim:
`t.Second() >= 55 || (t.Second() < 30 && t.Second() >= 25)`. -/
def classify (t : Nat) : Severity :=
  if 55 ≤ second t ∨ (second t < 30 ∧ 25 ≤ second t) then .warning else .normal

/-- One iteration of `Run`'s loop body (source lines 480-495), for the tick
with timestamp `t`: generate the code (panic if that errors), then call the
sink's `Warn` or `Write` entry point according to the severity decision
(panic if the call returns an error). The result is the device as the body
leaves it (no statement of the body assigns to `d` or its fields), the sink
calls made, and whether the body completed or panicked. -/
def tick (d : MFADevice) (t : Nat) : MFADevice × List SinkCall × Outcome :=
  match generateOf d t with
  | .error _ => (d, [], .panicked)
  | .ok out =>
    match classify t with
    | .warning =>
      (d, [SinkCall.warn out], if d.writer.warnFails out then .panicked else .completed)
    | .normal =>
      (d, [SinkCall.write out], if d.writer.writeFails out then .panicked else .completed)

/-- `Run`'s infinite loop (source lines 477-497) unrolled over a finite
list of tick timestamps: ticks run serially; a panic stops the loop (and
the process). Returns all sink calls made in order, and whether the loop is
still running (`completed`) after the listed ticks or panicked. -/
def runTrace (d : MFADevice) : List Nat → List SinkCall × Outcome
  | [] => ([], Outcome.completed)
  | t :: ts =>
    match tick d t with
    | (_, calls, Outcome.panicked) => (calls, Outcome.panicked)
    | (d2, calls, Outcome.completed) =>
      let rest := runTrace d2 ts
      (calls ++ rest.1, rest.2)

/-- Functional option `Secret` (source lines 500-506). -/
def Secret (secret : String) (d : MFADevice) : MFADevice :=
  if secret ≠ "" then { d with secret := strBytes secret } else d

/-- Functional option `Output` (source lines 530-536); `none` models a nil
`Writer` argument. -/
def Output (w : Option Writer) (d : MFADevice) : MFADevice :=
  match w with
  | some w => { d with writer := w }
  | none => d

/-- Functional option `UpdateFrequency` (source lines 539-545). -/
def UpdateFrequency (p : Nat) (d : MFADevice) : MFADevice :=
  if p ≠ 0 then { d with updateFrequency := p } else d

/-- Functional option `RefreshPeriod` (source lines 547-553). -/
def RefreshPeriod (per : Nat) (d : MFADevice) : MFADevice :=
  if per ≠ 0 then { d with totpOptions := { d.totpOptions with period := per } } else d

/-- Functional option `Digits` (source lines 555-559): sets the digit count
unconditionally. -/
def Digits (dig : Nat) (d : MFADevice) : MFADevice :=
  { d with totpOptions := { d.totpOptions with digits := dig } }

/-- Functional option `Algorithm` (source lines 561-567): a non-empty name
is looked up in `algMap`; an absent key yields the map's zero value 0
(`otp.AlgorithmSHA1`). -/
def Algorithm (alg : String) (d : MFADevice) : MFADevice :=
  if alg ≠ "" then
    { d with totpOptions := { d.totpOptions with algorithm := (algMapLookup alg).getD 0 } }
  else d

/-- `NewMFADevice` (source lines 461-474): the default device (terminal
sink, one-second update frequency, zero-valued TOTP options, nil secret)
with the options applied in order. Construction is total: no option and no
part of the constructor validates the configuration or can fail. -/
def NewMFADevice (options : List (MFADevice → MFADevice)) : MFADevice :=
  options.foldl (fun d o => o d)
    { secret := []
      writer := terminalWriter
      updateFrequency := timeSecond
      totpOptions := {} }

/-- What `SecretFromFile` observes of its file argument: the name, the
permission bits `stat.Mode().Perm()` (0..0o777), the content, and whether
the `Stat` and `ReadAll` calls succeed. -/
structure FileInfo where
  name : String
  perm : Nat
  content : Bytes
  statOk : Bool
  readOk : Bool

/-- The warning text of source line 517
(`fmt.Sprintf` of the warning with the quoted file name). -/
def secretWarnMsg (name : String) : String :=
  "WARNING - secret file \"" ++ name ++ "\" is not secure\n"

/-- Functional option `SecretFromFile` (source lines 509-527): for a
non-nil file, `Stat` (panic on error); if the permission bits compare
greater than `0o700` numerically, call the sink's `Warn` entry point —
discarding its returned error (line 517 ignores the result); `ReadAll`
(panic on error); store the content as the secret. Returns the device, the
sink calls made, and whether the option completed or panicked. -/
def SecretFromFile (file : Option FileInfo) (d : MFADevice) :
    MFADevice × List SinkCall × Outcome :=
  match file with
  | none => (d, [], .completed)
  | some f =>
    if f.statOk then
      let calls := if 0o700 < f.perm then [SinkCall.warn (secretWarnMsg f.name)] else []
      if f.readOk then ({ d with secret := f.content }, calls, .completed)
      else (d, calls, .panicked)
    else (d, [], .panicked)

/-! ### Helper lemmas -/

theorem digitChar_isDigit : ∀ m, m < 10 → (digitChar m).isDigit = true := by decide

theorem decReprAux_length_le (fuel : Nat) : ∀ n l, n < fuel → n < 10 ^ l → 1 ≤ l →
    (decReprAux fuel n).length ≤ l := by
  induction fuel with
  | zero => intro n l h _ _; omega
  | succ f ih =>
    intro n l hn hpow hl
    unfold decReprAux
    split
    · simpa using hl
    · rename_i h10
      rw [List.length_append]
      have hl2 : 2 ≤ l := by
        by_contra hc
        have hl1 : l = 1 := by omega
        subst hl1
        have : n < 10 := by simpa using hpow
        omega
      have h1 : n / 10 < f := by
        have := Nat.div_lt_self (by omega : 0 < n) (by omega : 1 < 10)
        omega
      have h2 : n / 10 < 10 ^ (l - 1) := by
        rw [Nat.div_lt_iff_lt_mul (by omega : 0 < 10)]
        calc n < 10 ^ l := hpow
          _ = 10 ^ (l - 1) * 10 := by rw [← Nat.pow_succ]; congr 1; omega
      have := ih (n / 10) (l - 1) h1 h2 (by omega)
      simp only [List.length_cons, List.length_nil]
      omega

theorem decReprAux_all_digits (fuel : Nat) : ∀ n, (decReprAux fuel n).all Char.isDigit = true := by
  induction fuel with
  | zero => intro n; rfl
  | succ f ih =>
    intro n
    unfold decReprAux
    split
    · rename_i h; simp [digitChar_isDigit n h]
    · simp [List.all_append, ih, digitChar_isDigit (n % 10) (Nat.mod_lt _ (by omega))]

theorem decRepr_length_le (n l : Nat) (hpow : n < 10 ^ l) (hl : 1 ≤ l) :
    (decRepr n).length ≤ l :=
  decReprAux_length_le (n + 1) n l (Nat.lt_succ_self n) hpow hl

theorem decRepr_all_digits (n : Nat) : (decRepr n).all Char.isDigit = true :=
  decReprAux_all_digits (n + 1) n

theorem zeroPad_length (l : Nat) (s : List Char) (h : s.length ≤ l) :
    (zeroPad l s).length = l := by
  simp [zeroPad]
  omega

theorem zeroPad_all_digits (l : Nat) (s : List Char) (h : s.all Char.isDigit = true) :
    (zeroPad l s).all Char.isDigit = true := by
  rw [zeroPad, List.all_append, h, Bool.and_true]
  simp only [List.all_eq_true]
  intro x hx
  have hx0 := List.eq_of_mem_replicate hx
  subst hx0
  decide

theorem strBytes_ne_nil (s : String) (h : s ≠ "") : strBytes s ≠ [] := by
  intro hc
  apply h
  cases s with
  | mk data =>
    cases data with
    | nil => rfl
    | cons a as => simp [strBytes] at hc

theorem tick_gen_error (d : MFADevice) (t : Nat) (e : GenErr)
    (h : generateOf d t = .error e) : tick d t = (d, [], .panicked) := by
  unfold tick
  rw [h]

theorem tick_ok_warning (d : MFADevice) (t : Nat) (out : String)
    (hg : generateOf d t = .ok out) (hc : classify t = .warning) :
    tick d t = (d, [SinkCall.warn out],
      if d.writer.warnFails out then .panicked else .completed) := by
  unfold tick
  rw [hg, hc]

theorem tick_ok_normal (d : MFADevice) (t : Nat) (out : String)
    (hg : generateOf d t = .ok out) (hc : classify t = .normal) :
    tick d t = (d, [SinkCall.write out],
      if d.writer.writeFails out then .panicked else .completed) := by
  unfold tick
  rw [hg, hc]

/-- A concrete device as `main` builds one: the 16-character secret of the
spec's end-to-end scenario, default SHA1 algorithm, 30-second period,
6 digits. -/
def sampleDevice : MFADevice :=
  NewMFADevice [Secret ("JBSWY3DPEHPK3PXP"), RefreshPeriod 30, Digits 6]

/-- `sampleDevice` with a 60-second period instead. -/
def sampleDevice60 : MFADevice :=
  NewMFADevice [Secret ("JBSWY3DPEHPK3PXP"), RefreshPeriod 60, Digits 6]

/-! ### Claim theorems -/

/-- C1: for every tick at timestamp `t` of a device with the default
30-second period, the severity classification is WARNING exactly when the
seconds-of-minute component of `t` lies in 25-29 or 55-59 and NORMAL
otherwise, and the loop routes a WARNING-classified code to the sink's Warn
entry point and a NORMAL-classified code to the sink's Write entry point. -/
theorem c1_classification_and_routing (d : MFADevice) (t : Nat) (out : String)
    (hper : d.totpOptions.period = 30) (hg : generateOf d t = .ok out) :
    (classify t = .warning ↔
      ((25 ≤ t % 60 ∧ t % 60 ≤ 29) ∨ (55 ≤ t % 60 ∧ t % 60 ≤ 59))) ∧
    (classify t = .warning → (tick d t).2.1 = [SinkCall.warn out]) ∧
    (classify t = .normal → (tick d t).2.1 = [SinkCall.write out]) := by
  have h60 : t % 60 < 60 := Nat.mod_lt _ (by omega)
  refine ⟨?_, ?_, ?_⟩
  · unfold classify second
    by_cases h : 55 ≤ t % 60 ∨ (t % 60 < 30 ∧ 25 ≤ t % 60)
    · rw [if_pos h]
      constructor
      · intro _; omega
      · intro _; rfl
    · rw [if_neg h]
      constructor
      · intro heq; exact absurd heq (by decide)
      · intro hR; exact absurd (by omega : 55 ≤ t % 60 ∨ (t % 60 < 30 ∧ 25 ≤ t % 60)) h
  · intro hc
    rw [tick_ok_warning d t out hg hc]
  · intro hc
    rw [tick_ok_normal d t out hg hc]

/-- C1 witness: at `t = 59` (seconds-of-minute 59) with the 30-second-period
sample device, the hypotheses hold and the classification/routing facts
follow. -/
theorem c1_witness :
    sampleDevice.totpOptions.period = 30 ∧
    generateOf sampleDevice 59 = .ok ("504579") ∧
    ((classify 59 = .warning ↔
      ((25 ≤ 59 % 60 ∧ 59 % 60 ≤ 29) ∨ (55 ≤ 59 % 60 ∧ 59 % 60 ≤ 59))) ∧
    (classify 59 = .warning → (tick sampleDevice 59).2.1 = [SinkCall.warn ("504579")]) ∧
    (classify 59 = .normal → (tick sampleDevice 59).2.1 = [SinkCall.write ("504579")])) :=
  ⟨rfl, rfl, c1_classification_and_routing sampleDevice 59 ("504579") rfl rfl⟩

/-- C5: two timestamps with the same time-step counter
`floor(unix_seconds / period)` yield the identical code for the same
secret, algorithm, digit count and period. -/
theorem c5_code_constant_within_window (secret : Bytes) (alg digits period t1 t2 : Nat)
    (h : t1 / period = t2 / period) :
    generate secret alg digits period t1 = generate secret alg digits period t2 := by
  unfold generate
  rw [h]

/-- C5 witness: timestamps 59 and 31 share the counter 1 for period 30. -/
theorem c5_witness :
    (59 : Nat) / 30 = 31 / 30 ∧
    generate (strBytes ("JBSWY3DPEHPK3PXP")) 0 6 30 59
      = generate (strBytes ("JBSWY3DPEHPK3PXP")) 0 6 30 31 :=
  ⟨by decide, c5_code_constant_within_window (strBytes ("JBSWY3DPEHPK3PXP")) 0 6 30 59 31 (by decide)⟩

/-- C6: for every valid configuration (non-empty secret, recognized
algorithm constant, positive digit count, positive period) and every
timestamp, generation succeeds and the code has length exactly `digits`,
consists only of decimal digits, and is the left-zero-padded decimal
representation of the mod-reduced value. -/
theorem c6_output_format (secret : Bytes) (alg digits period t : Nat)
    (hs : secret ≠ []) (ha : alg < 4) (hd : 0 < digits) (hp : 0 < period) :
    ∃ code : String,
      generate secret alg digits period t = .ok code ∧
      code.length = digits ∧
      code.data.all Char.isDigit = true ∧
      code.data = zeroPad digits (decRepr (hmac31 alg secret (t / period) % 10 ^ digits)) := by
  have hv : hmac31 alg secret (t / period) % 10 ^ digits < 10 ^ digits :=
    Nat.mod_lt _ (pow_pos (by omega) digits)
  refine ⟨String.mk (zeroPad digits (decRepr (hmac31 alg secret (t / period) % 10 ^ digits))),
    ?_, ?_, ?_, rfl⟩
  · unfold generate
    rw [if_neg hs, if_neg (by omega : ¬digits = 0), if_neg (by omega : ¬4 ≤ alg)]
  · exact zeroPad_length _ _ (decRepr_length_le _ _ hv hd)
  · exact zeroPad_all_digits _ _ (decRepr_all_digits _)

/-- C6 witness: the sample configuration at timestamp 59. -/
theorem c6_witness :
    strBytes ("JBSWY3DPEHPK3PXP") ≠ [] ∧ (0 : Nat) < 4 ∧ (0 : Nat) < 6 ∧ (0 : Nat) < 30 ∧
    ∃ code : String,
      generate (strBytes ("JBSWY3DPEHPK3PXP")) 0 6 30 59 = .ok code ∧
      code.length = 6 ∧
      code.data.all Char.isDigit = true ∧
      code.data = zeroPad 6 (decRepr (hmac31 0 (strBytes ("JBSWY3DPEHPK3PXP")) (59 / 30) % 10 ^ 6)) :=
  ⟨by decide, by decide, by decide, by decide,
    c6_output_format (strBytes ("JBSWY3DPEHPK3PXP")) 0 6 30 59
      (by decide) (by decide) (by decide) (by decide)⟩

/-- C8: every tick that completes performs exactly one sink call, and that
call is a Warn or a Write (never the error entry point, never both, never
zero, never a retry). -/
theorem c8_single_sink_call (d : MFADevice) (t : Nat)
    (h : (tick d t).2.2 = Outcome.completed) :
    (tick d t).2.1.length = 1 ∧
    ∀ c ∈ (tick d t).2.1, (∃ p, c = SinkCall.warn p) ∨ (∃ p, c = SinkCall.write p) := by
  cases hg : generateOf d t with
  | error e =>
    rw [tick_gen_error d t e hg] at h
    simp at h
  | ok out =>
    cases hc : classify t with
    | warning =>
      rw [tick_ok_warning d t out hg hc]
      refine ⟨rfl, ?_⟩
      intro c hcmem
      have hcmem2 : c ∈ [SinkCall.warn out] := hcmem
      rw [List.mem_singleton] at hcmem2
      subst hcmem2
      exact Or.inl ⟨out, rfl⟩
    | normal =>
      rw [tick_ok_normal d t out hg hc]
      refine ⟨rfl, ?_⟩
      intro c hcmem
      have hcmem2 : c ∈ [SinkCall.write out] := hcmem
      rw [List.mem_singleton] at hcmem2
      subst hcmem2
      exact Or.inr ⟨out, rfl⟩

/-- C8 witness: the sample device's tick at timestamp 10 completes and makes
exactly one out-call. -/
theorem c8_witness :
    (tick sampleDevice 10).2.2 = Outcome.completed ∧
    ((tick sampleDevice 10).2.1.length = 1 ∧
     ∀ c ∈ (tick sampleDevice 10).2.1,
       (∃ p, c = SinkCall.warn p) ∨ (∃ p, c = SinkCall.write p)) :=
  ⟨rfl, c8_single_sink_call sampleDevice 10 rfl⟩

/-- C9: a tick never modifies the device configuration — secret, writer,
update frequency and TOTP options are identical before and after the loop
body. -/
theorem c9_device_unchanged (d : MFADevice) (t : Nat) :
    (tick d t).1.secret = d.secret ∧
    (tick d t).1.writer = d.writer ∧
    (tick d t).1.updateFrequency = d.updateFrequency ∧
    (tick d t).1.totpOptions = d.totpOptions := by
  cases hg : generateOf d t with
  | error e =>
    rw [tick_gen_error d t e hg]
    exact ⟨rfl, rfl, rfl, rfl⟩
  | ok out =>
    cases hc : classify t with
    | warning =>
      rw [tick_ok_warning d t out hg hc]
      exact ⟨rfl, rfl, rfl, rfl⟩
    | normal =>
      rw [tick_ok_normal d t out hg hc]
      exact ⟨rfl, rfl, rfl, rfl⟩

/-- C10: for two devices that differ only in the configured validity
period, every tick makes sink calls of identical kinds — the
Warn-versus-Write decision depends only on the timestamp's seconds-of-minute
component, never on the period. -/
theorem c10_classification_ignores_period (d1 d2 : MFADevice) (t : Nat)
    (hs : d1.secret = d2.secret)
    (hw : d1.writer = d2.writer)
    (hu : d1.updateFrequency = d2.updateFrequency)
    (ha : d1.totpOptions.algorithm = d2.totpOptions.algorithm)
    (hd : d1.totpOptions.digits = d2.totpOptions.digits)
    (hk : d1.totpOptions.skew = d2.totpOptions.skew) :
    (tick d1 t).2.1.map callKind = (tick d2 t).2.1.map callKind := by
  have e1 : generateOf d1 t
      = generate d2.secret d2.totpOptions.algorithm d2.totpOptions.digits
          d1.totpOptions.period t := by
    unfold generateOf
    rw [hs, ha, hd]
  by_cases h1 : d2.secret = []
  · have g1 : generateOf d1 t = .error .emptySecret := by
      rw [e1]; unfold generate; rw [if_pos h1]
    have g2 : generateOf d2 t = .error .emptySecret := by
      unfold generateOf generate; rw [if_pos h1]
    rw [tick_gen_error d1 t _ g1, tick_gen_error d2 t _ g2]
  · by_cases h2 : d2.totpOptions.digits = 0
    · have g1 : generateOf d1 t = .error .badDigits := by
        rw [e1]; unfold generate; rw [if_neg h1, if_pos h2]
      have g2 : generateOf d2 t = .error .badDigits := by
        unfold generateOf generate; rw [if_neg h1, if_pos h2]
      rw [tick_gen_error d1 t _ g1, tick_gen_error d2 t _ g2]
    · by_cases h3 : 4 ≤ d2.totpOptions.algorithm
      · have g1 : generateOf d1 t = .error .badAlgorithm := by
          rw [e1]; unfold generate; rw [if_neg h1, if_neg h2, if_pos h3]
        have g2 : generateOf d2 t = .error .badAlgorithm := by
          unfold generateOf generate; rw [if_neg h1, if_neg h2, if_pos h3]
        rw [tick_gen_error d1 t _ g1, tick_gen_error d2 t _ g2]
      · have g1 : generateOf d1 t = .ok (String.mk (zeroPad d2.totpOptions.digits
            (decRepr (hmac31 d2.totpOptions.algorithm d2.secret
              (t / d1.totpOptions.period) % 10 ^ d2.totpOptions.digits)))) := by
          rw [e1]; unfold generate; rw [if_neg h1, if_neg h2, if_neg h3]
        have g2 : generateOf d2 t = .ok (String.mk (zeroPad d2.totpOptions.digits
            (decRepr (hmac31 d2.totpOptions.algorithm d2.secret
              (t / d2.totpOptions.period) % 10 ^ d2.totpOptions.digits)))) := by
          unfold generateOf generate; rw [if_neg h1, if_neg h2, if_neg h3]
        cases hc : classify t with
        | warning =>
          rw [tick_ok_warning d1 t _ g1 hc]
          rw [tick_ok_warning d2 t _ g2 hc]
          simp [callKind]
        | normal =>
          rw [tick_ok_normal d1 t _ g1 hc]
          rw [tick_ok_normal d2 t _ g2 hc]
          simp [callKind]

/-- C10 witness: the sample device with period 30 versus period 60, at
timestamp 59. -/
theorem c10_witness :
    sampleDevice.secret = sampleDevice60.secret ∧
    sampleDevice.writer = sampleDevice60.writer ∧
    sampleDevice.updateFrequency = sampleDevice60.updateFrequency ∧
    sampleDevice.totpOptions.algorithm = sampleDevice60.totpOptions.algorithm ∧
    sampleDevice.totpOptions.digits = sampleDevice60.totpOptions.digits ∧
    sampleDevice.totpOptions.skew = sampleDevice60.totpOptions.skew ∧
    (tick sampleDevice 59).2.1.map callKind = (tick sampleDevice60 59).2.1.map callKind :=
  ⟨rfl, rfl, rfl, rfl, rfl, rfl,
    c10_classification_ignores_period sampleDevice sampleDevice60 59 rfl rfl rfl rfl rfl rfl⟩

/-- C2 amended: if OTP generation fails during a tick, the loop panics —
the process terminates, no sink call is made (in particular the sink's
error entry point is not invoked) and the loop does not continue. -/
theorem c2_generation_failure_panics (d : MFADevice) (t : Nat) (e : GenErr)
    (h : generateOf d t = .error e) :
    tick d t = (d, [], Outcome.panicked) :=
  tick_gen_error d t e h

/-- C2 counterexample: the default-constructed device has an empty secret,
so generation fails at the first tick; the loop makes no sink call at all
(the error entry point included) and panics instead of continuing to the
second tick — contradicting the claim as stated. -/
theorem c2_counterexample :
    generateOf (NewMFADevice []) 0 = .error GenErr.emptySecret ∧
    runTrace (NewMFADevice []) [0, 1] = ([], Outcome.panicked) :=
  ⟨rfl, rfl⟩

/-- C2 witness: the amended theorem at the default device and timestamp 5. -/
theorem c2_witness :
    generateOf (NewMFADevice []) 5 = .error GenErr.emptySecret ∧
    tick (NewMFADevice []) 5 = (NewMFADevice [], [], Outcome.panicked) :=
  ⟨rfl, c2_generation_failure_panics (NewMFADevice []) 5 GenErr.emptySecret rfl⟩

/-- A secret file with mode 0644: owner read/write, group read, world read
— the typical permission bits of a carelessly created file. -/
def worldReadableFile : FileInfo :=
  ⟨"/home/u/.mfa/secret", 0o644, [1, 2, 3], true, true⟩

/-- A secret file with mode 0710: readable (and writable/executable) only
by its owner; the group has execute permission only, no read. -/
def ownerOnlyFile : FileInfo :=
  ⟨"/home/u/.mfa/secret", 0o710, [1, 2, 3], true, true⟩

/-- C3: code bug. A secret file with permission bits 0o644 — group- and
world-readable, the typical insecure mode — produces no warning, because
source line 516 compares `stat.Mode().Perm() > 0o700` numerically and
0o644 < 0o700; the README and the spec promise a warning whenever the file
is readable beyond its owner. Conversely a 0o710 file (readable only by
its owner; group has execute only) does produce the warning. -/
theorem c3_world_readable_file_not_warned :
    worldReadableFile.perm = 0o644 ∧ 0o644 &&& 0o044 ≠ 0 ∧
    (SecretFromFile (some worldReadableFile) (NewMFADevice [])).2
      = ([], Outcome.completed) ∧
    ownerOnlyFile.perm = 0o710 ∧ 0o710 &&& 0o044 = 0 ∧
    (SecretFromFile (some ownerOnlyFile) (NewMFADevice [])).2.1
      = [SinkCall.warn (secretWarnMsg ("/home/u/.mfa/secret"))] :=
  ⟨rfl, by decide, rfl, rfl, by decide, rfl⟩

/-- C4 amended: construction never fails — `NewMFADevice` performs no
validation. An unknown algorithm name is silently mapped to the zero
constant (SHA1) by the `algMap` lookup; with a non-empty secret and
otherwise main-style options the device is built, the loop starts, and
every tick completes with exactly one sink call. -/
theorem c4_no_construction_validation (alg s : String) (t : Nat)
    (h1 : algMapLookup alg = none) (h2 : alg ≠ "") (h3 : s ≠ "") :
    (NewMFADevice [Secret s, Algorithm alg, RefreshPeriod 30, Digits 6]).totpOptions.algorithm
      = 0 ∧
    (tick (NewMFADevice [Secret s, Algorithm alg, RefreshPeriod 30, Digits 6]) t).2.2
      = Outcome.completed ∧
    (tick (NewMFADevice [Secret s, Algorithm alg, RefreshPeriod 30, Digits 6]) t).2.1.length
      = 1 := by
  have hdev : NewMFADevice [Secret s, Algorithm alg, RefreshPeriod 30, Digits 6]
      = { secret := strBytes s, writer := terminalWriter, updateFrequency := timeSecond,
          totpOptions := { period := 30, skew := 0, digits := 6, algorithm := 0 } } := by
    show Digits 6 (RefreshPeriod 30 (Algorithm alg (Secret s
      { secret := [], writer := terminalWriter, updateFrequency := timeSecond,
        totpOptions := {} }))) = _
    unfold Secret Algorithm RefreshPeriod Digits
    rw [if_pos h3, if_pos h2, h1]
    rfl
  have hsec : strBytes s ≠ [] := strBytes_ne_nil s h3
  rw [hdev]
  have hg : generateOf
      { secret := strBytes s, writer := terminalWriter, updateFrequency := timeSecond,
        totpOptions := { period := 30, skew := 0, digits := 6, algorithm := 0 } } t
      = .ok (String.mk (zeroPad 6 (decRepr (hmac31 0 (strBytes s) (t / 30) % 10 ^ 6)))) := by
    unfold generateOf generate
    rw [if_neg hsec, if_neg (by omega : ¬(6 : Nat) = 0), if_neg (by omega : ¬(4 : Nat) ≤ 0)]
  refine ⟨rfl, ?_, ?_⟩
  · cases hc : classify t with
    | warning => rw [tick_ok_warning _ t _ hg hc]; rfl
    | normal => rw [tick_ok_normal _ t _ hg hc]; rfl
  · cases hc : classify t with
    | warning => rw [tick_ok_warning _ t _ hg hc]; rfl
    | normal => rw [tick_ok_normal _ t _ hg hc]; rfl

/-- C4 counterexample: the algorithm name FOO is not in `algMap`, yet
construction succeeds (mapping it silently to the SHA1 constant) and the
loop runs: at timestamp 10 the tick completes with a Write call —
contradicting "the refresh loop never starts and no tick occurs". -/
theorem c4_counterexample :
    algMapLookup ("FOO") = none ∧
    runTrace (NewMFADevice [Secret ("JBSWY3DPEHPK3PXP"), Algorithm ("FOO"),
        RefreshPeriod 30, Digits 6]) [10]
      = ([SinkCall.write ("980242")], Outcome.completed) :=
  ⟨rfl, rfl⟩

/-- C4 witness: the amended theorem at FOO, the sample secret, and
timestamp 10. -/
theorem c4_witness :
    algMapLookup ("FOO") = none ∧ ("FOO" : String) ≠ "" ∧ ("JBSWY3DPEHPK3PXP" : String) ≠ "" ∧
    ((NewMFADevice [Secret ("JBSWY3DPEHPK3PXP"), Algorithm ("FOO"), RefreshPeriod 30,
        Digits 6]).totpOptions.algorithm = 0 ∧
     (tick (NewMFADevice [Secret ("JBSWY3DPEHPK3PXP"), Algorithm ("FOO"), RefreshPeriod 30,
        Digits 6]) 10).2.2 = Outcome.completed ∧
     (tick (NewMFADevice [Secret ("JBSWY3DPEHPK3PXP"), Algorithm ("FOO"), RefreshPeriod 30,
        Digits 6]) 10).2.1.length = 1) :=
  ⟨rfl, by decide, by decide,
    c4_no_construction_validation ("FOO") ("JBSWY3DPEHPK3PXP") 10 rfl (by decide) (by decide)⟩

/-- A sink whose Warn entry point always returns an error. -/
def failingWarnWriter : Writer :=
  { writeFails := fun _ => false
    warnFails := fun _ => true
    errorFails := fun _ => false }

/-- A file whose Stat call fails. -/
def badStatFile : FileInfo :=
  ⟨"f", 0o600, [], false, true⟩

/-- A secret file with mode 0744, whose permission check triggers the
warning of source line 517. -/
def insecureModeFile : FileInfo :=
  ⟨"f", 0o744, [7], true, true⟩

/-- C7 amended: every error in the tick loop and in secret-file loading is
fatal (a panic), hence never silently discarded: a generation error panics
the tick with no sink call; a completed tick implies the one sink call it
made did not fail; a Stat or ReadAll failure in SecretFromFile panics. The
sole exception, established by the counterexample, is the result of the
permission-warning Warn call in SecretFromFile, which the source discards. -/
theorem c7_errors_fatal_or_visible (d : MFADevice) (t : Nat) (f : FileInfo) :
    (∀ e, generateOf d t = .error e → tick d t = (d, [], Outcome.panicked)) ∧
    ((tick d t).2.2 = Outcome.completed →
      ∀ c ∈ (tick d t).2.1, callFails d.writer c = false) ∧
    ((f.statOk = false ∨ f.readOk = false) →
      (SecretFromFile (some f) d).2.2 = Outcome.panicked) := by
  refine ⟨fun e he => tick_gen_error d t e he, ?_, ?_⟩
  · intro h c hcmem
    cases hg : generateOf d t with
    | error e =>
      rw [tick_gen_error d t e hg] at hcmem
      simp at hcmem
    | ok out =>
      cases hc : classify t with
      | warning =>
        rw [tick_ok_warning d t out hg hc] at h hcmem
        have hcmem2 : c ∈ [SinkCall.warn out] := hcmem
        rw [List.mem_singleton] at hcmem2
        subst hcmem2
        by_cases hb : d.writer.warnFails out = true
        · rw [if_pos hb] at h
          simp at h
        · simpa [callFails] using hb
      | normal =>
        rw [tick_ok_normal d t out hg hc] at h hcmem
        have hcmem2 : c ∈ [SinkCall.write out] := hcmem
        rw [List.mem_singleton] at hcmem2
        subst hcmem2
        by_cases hb : d.writer.writeFails out = true
        · rw [if_pos hb] at h
          simp at h
        · simpa [callFails] using hb
  · intro hf
    cases hst : f.statOk with
    | false => simp [SecretFromFile, hst]
    | true =>
      have hr : f.readOk = false := by
        rcases hf with h | h
        · rw [hst] at h; exact absurd h (by decide)
        · exact h
      simp [SecretFromFile, hst, hr]

/-- C7 counterexample: loading a 0o744 secret file through a sink whose
Warn entry point fails: the Warn call is made and its error result is
silently discarded — the load completes normally and nothing is reported
through the error entry point — contradicting "no error result is ever
silently discarded". -/
theorem c7_counterexample :
    failingWarnWriter.warnFails (secretWarnMsg ("f")) = true ∧
    insecureModeFile.perm = 0o744 ∧
    (SecretFromFile (some insecureModeFile)
        (NewMFADevice [Output (some failingWarnWriter)])).2
      = ([SinkCall.warn (secretWarnMsg ("f"))], Outcome.completed) :=
  ⟨rfl, rfl, rfl⟩

/-- C7 witness: the amended theorem at the default device, timestamp 3, and
a file whose Stat fails. -/
theorem c7_witness :
    generateOf (NewMFADevice []) 3 = .error GenErr.emptySecret ∧
    tick (NewMFADevice []) 3 = (NewMFADevice [], [], Outcome.panicked) ∧
    badStatFile.statOk = false ∧
    (SecretFromFile (some badStatFile) (NewMFADevice [])).2.2 = Outcome.panicked :=
  ⟨rfl,
   (c7_errors_fatal_or_visible (NewMFADevice []) 3 badStatFile).1 GenErr.emptySecret rfl,
   rfl,
   (c7_errors_fatal_or_visible (NewMFADevice []) 3 badStatFile).2.2 (Or.inl rfl)⟩

end Mfa
